import Mathlib

/-!
Verification model of the batch request orchestration engine of
forminator (src/forminator.py).

The Python code is shallowly embedded as executable Lean definitions.
Conventions used throughout:

* Python strings are Lean `String` (a list of characters); the handful of
  string methods the source uses (`split` with a maxsplit, `strip`,
  `lstrip` with a character set, `endswith`) are modelled over `List Char`
  with the ASCII whitespace set, which covers every string the program
  manipulates.
* Values produced by `json.loads` are modelled by the inductive `JValue`;
  number literals are modelled as integers, which covers all fields the
  program reads (token counts) and the concrete inputs considered here.
* A Python exception escaping a function is modelled by an explicit
  error value (`Except.error` or an `Option String` exception slot);
  Python `None` returned by a function is `Option.none` inside
  `Except.ok`.
* Side effects visible to the collaborators (calls to `print`, to the
  progress callback and to the completion callback) are collected in an
  event trace (`Event`).
-/

/-- Whitespace characters stripped by Python str.strip with no argument
(ASCII subset, which is all that occurs in this program). -/
def isPySpace (c : Char) : Bool :=
  c = ' ' || c = '\t' || c = '\n' || c = '\r' || c = '\x0b' || c = '\x0c'

/-- Drop leading characters of a list satisfying a predicate. -/
def dropWhileChars (p : Char → Bool) : List Char → List Char
  | [] => []
  | c :: cs => if p c then dropWhileChars p cs else c :: cs

/-- Model of Python str.strip with no argument: remove leading and
trailing whitespace. -/
def pyStrip (s : String) : String :=
  String.mk (dropWhileChars isPySpace ((dropWhileChars isPySpace s.data.reverse).reverse))

/-- Model of Python str.lstrip with a character-set argument: remove
leading characters that belong to the set. -/
def pyLstrip (s : String) (set : List Char) : String :=
  String.mk (dropWhileChars (fun c => set.contains c) s.data)

/-- Model of Python str.endswith. -/
def pyEndswith (s suffix : String) : Bool :=
  List.isPrefixOf suffix.data.reverse s.data.reverse

/-- One scanning step of Python str.split(sep, maxsplit): leftmost
non-overlapping matches of a non-empty separator, at most maxsplit
splits.  Fuel bounds the recursion; callers pass the length of the
input plus one, which is never exhausted. -/
def pySplitChars (sep : List Char) : Nat → Nat → List Char → List Char → List (List Char)
  | _, 0, acc, cs => [acc.reverse ++ cs]
  | maxsplit, fuel + 1, acc, cs =>
    match cs with
    | [] => [acc.reverse]
    | c :: rest =>
      if maxsplit > 0 && List.isPrefixOf sep cs then
        acc.reverse :: pySplitChars sep (maxsplit - 1) fuel [] (cs.drop sep.length)
      else
        pySplitChars sep maxsplit fuel (c :: acc) rest

/-- Model of Python str.split(sep, maxsplit) for a non-empty separator. -/
def pySplit (s sep : String) (maxsplit : Nat) : List String :=
  (pySplitChars sep.data maxsplit (s.data.length + 1) [] s.data).map String.mk

/-- Values produced by json.loads, with number literals restricted to
integers (sufficient for every field this program reads). -/
inductive JValue where
  | null : JValue
  | bool : Bool → JValue
  | num : Int → JValue
  | str : String → JValue
  | arr : List JValue → JValue
  | obj : List (String × JValue) → JValue

/-- JSON insignificant whitespace. -/
def isJsonWs (c : Char) : Bool :=
  c = ' ' || c = '\t' || c = '\n' || c = '\r'

/-- Skip JSON whitespace. -/
def skipWs : List Char → List Char
  | [] => []
  | c :: cs => if isJsonWs c then skipWs cs else c :: cs

/-- Parse the body of a JSON string literal after the opening quote,
returning the content and the remainder after the closing quote.
Escape sequences are decoded for the common single-character escapes;
other escapes are rejected. -/
def parseStringBody : List Char → Option (List Char × List Char)
  | [] => none
  | '"' :: rest => some ([], rest)
  | '\\' :: e :: rest =>
    match (match e with
           | '"' => some '"'
           | '\\' => some '\\'
           | '/' => some '/'
           | 'n' => some '\n'
           | 't' => some '\t'
           | 'r' => some '\r'
           | _ => none) with
    | none => none
    | some c => (parseStringBody rest).map (fun p => (c :: p.1, p.2))
  | c :: rest => (parseStringBody rest).map (fun p => (c :: p.1, p.2))

/-- Take a maximal run of decimal digits. -/
def spanDigits : List Char → List Char × List Char
  | [] => ([], [])
  | c :: cs =>
    if c.isDigit then
      let p := spanDigits cs
      (c :: p.1, p.2)
    else ([], c :: cs)

/-- Digits to a natural number. -/
def digitsToNat (ds : List Char) : Nat :=
  ds.foldl (fun n c => 10 * n + (c.toNat - '0'.toNat)) 0

mutual

/-- Recursive-descent JSON value at the head of the input.  Fuel bounds
the recursion; jsonLoads passes enough for any input of its length. -/
def parseJValue : Nat → List Char → Option (JValue × List Char)
  | 0, _ => none
  | fuel + 1, cs =>
    match cs with
    | [] => none
    | '{' :: rest =>
      match skipWs rest with
      | '}' :: rest2 => some (JValue.obj [], rest2)
      | rest2 => parseMembers fuel rest2 []
    | '[' :: rest =>
      match skipWs rest with
      | ']' :: rest2 => some (JValue.arr [], rest2)
      | rest2 => parseElems fuel rest2 []
    | '"' :: rest =>
      (parseStringBody rest).map (fun p => (JValue.str (String.mk p.1), p.2))
    | '-' :: rest =>
      match spanDigits rest with
      | ([], _) => none
      | (ds, rest2) => some (JValue.num (-(digitsToNat ds : Int)), rest2)
    | c :: _ =>
      if c.isDigit then
        match spanDigits cs with
        | (ds, rest2) => some (JValue.num (digitsToNat ds : Int), rest2)
      else if List.isPrefixOf ['t', 'r', 'u', 'e'] cs then
        some (JValue.bool true, cs.drop 4)
      else if List.isPrefixOf ['f', 'a', 'l', 's', 'e'] cs then
        some (JValue.bool false, cs.drop 5)
      else if List.isPrefixOf ['n', 'u', 'l', 'l'] cs then
        some (JValue.null, cs.drop 4)
      else none

/-- Members of a JSON object after the opening brace (input positioned
at the first key). -/
def parseMembers : Nat → List Char → List (String × JValue) → Option (JValue × List Char)
  | 0, _, _ => none
  | fuel + 1, cs, acc =>
    match cs with
    | '"' :: rest =>
      match parseStringBody rest with
      | none => none
      | some (key, rest2) =>
        match skipWs rest2 with
        | ':' :: rest3 =>
          match parseJValue fuel (skipWs rest3) with
          | none => none
          | some (v, rest4) =>
            match skipWs rest4 with
            | ',' :: rest5 => parseMembers fuel (skipWs rest5) ((String.mk key, v) :: acc)
            | '}' :: rest5 => some (JValue.obj (((String.mk key, v) :: acc).reverse), rest5)
            | _ => none
        | _ => none
    | _ => none

/-- Elements of a JSON array after the opening bracket (input positioned
at the first element). -/
def parseElems : Nat → List Char → List JValue → Option (JValue × List Char)
  | 0, _, _ => none
  | fuel + 1, cs, acc =>
    match parseJValue fuel cs with
    | none => none
    | some (v, rest) =>
      match skipWs rest with
      | ',' :: rest2 => parseElems fuel (skipWs rest2) (v :: acc)
      | ']' :: rest2 => some (JValue.arr ((v :: acc).reverse), rest2)
      | _ => none

end

/-- Model of json.loads: parse a complete JSON document, requiring that
nothing but whitespace remain; any failure models json.JSONDecodeError. -/
def jsonLoads (s : String) : Option JValue :=
  match parseJValue (4 * s.data.length + 16) (skipWs s.data) with
  | some (v, rest) => if skipWs rest = [] then some v else none
  | none => none

/-- Model of subscripting a parsed JSON value with a string key, as in
result["choices"].  Returns none when the value is not an object or the
key is missing, which in Python raises TypeError or KeyError. -/
def getKey (v : JValue) (k : String) : Option JValue :=
  match v with
  | JValue.obj kvs => kvs.lookup k
  | _ => none

/-- Model of subscripting a parsed JSON value with a numeric index, as
in choices[0].  Returns none when the value is not an array or the index
is out of range, which in Python raises TypeError or IndexError. -/
def getIdx (v : JValue) (i : Nat) : Option JValue :=
  match v with
  | JValue.arr xs => xs.get? i
  | _ => none

/-- Coerce a JSON value to an integer for Python integer addition:
numbers are themselves, booleans count as 0 or 1 (as in Python), and
anything else raises TypeError (modelled as none). -/
def asInt : JValue → Option Int
  | JValue.num n => some n
  | JValue.bool b => some (if b then 1 else 0)
  | _ => none

/-- Python truthiness of a value produced by json.loads, used by the
expression content or dict(). -/
def pyTruthy : JValue → Bool
  | JValue.null => false
  | JValue.bool b => b
  | JValue.num n => n != 0
  | JValue.str s => s != ""
  | JValue.arr xs => !xs.isEmpty
  | JValue.obj kvs => !kvs.isEmpty

mutual

/-- Python str() of a value produced by json.loads, used when the parsed
record is passed to the progress callback. -/
def pyStr : JValue → String
  | JValue.null => "None"
  | JValue.bool true => "True"
  | JValue.bool false => "False"
  | JValue.num n => toString n
  | JValue.str s => "\x27" ++ s ++ "\x27"
  | JValue.arr xs => "[" ++ pyStrElems xs ++ "]"
  | JValue.obj kvs => "\x7b" ++ pyStrPairs kvs ++ "\x7d"

/-- Comma-separated renderings of array elements. -/
def pyStrElems : List JValue → String
  | [] => ""
  | [v] => pyStr v
  | v :: rest => pyStr v ++ ", " ++ pyStrElems rest

/-- Comma-separated renderings of object entries. -/
def pyStrPairs : List (String × JValue) → String
  | [] => ""
  | [(k, v)] => "\x27" ++ k ++ "\x27: " ++ pyStr v
  | (k, v) :: rest => "\x27" ++ k ++ "\x27: " ++ pyStr v ++ ", " ++ pyStrPairs rest

end

/-- Observable effects of the engine: writes to standard output via
print, calls to the progress callback, and the single call to the
completion callback carrying the accumulated results and both token
counters. -/
inductive Event where
  | print : String → Event
  | progress : String → Event
  | complete : List JValue → Int → Int → Event

/-- Mutable state of APIRequestManager: the completion counter, the
expected request count, the accumulated results, and the two token
counters stored in the tokens dictionary. -/
structure MgrState where
  completed_requests : Nat
  num_requests : Nat
  results : List JValue
  prompt_tokens : Int
  completion_tokens : Int

/-- Model of APIRequestManager.collect_files applied to the entries of
the directory listing: keep exactly the names for which one of the three
endswith tests succeeds. -/
def collect_files (entries : List String) : List String :=
  entries.filter (fun f =>
    pyEndswith f ".jpg" || pyEndswith f ".jpeg" || pyEndswith f ".png")

/-- State of a fresh APIRequestManager after __init__, which zeroes the
counters and the token tally and runs collect_files on the directory. -/
def initState (entries : List String) : MgrState :=
  { completed_requests := 0
    num_requests := (collect_files entries).length
    results := []
    prompt_tokens := 0
    completion_tokens := 0 }

/-- Model of APIRequestManager.request_complete: print the message,
increment the completion counter under the lock, and when the counter
reaches the expected request count invoke the completion callback with
the accumulated results and token tally. -/
def request_complete (st : MgrState) (result : String) : MgrState × List Event :=
  let st' := { st with completed_requests := st.completed_requests + 1 }
  if st'.completed_requests = st'.num_requests then
    (st', [Event.print result,
           Event.complete st'.results st'.prompt_tokens st'.completion_tokens])
  else
    (st', [Event.print result])

/-- Navigation prefix of parse_openai_json_result: the expression
result["choices"][0]["message"]["content"], where each failing
subscription raises (modelled as Except.error) and a non-string content
would make the subsequent split call raise AttributeError. -/
def contentOf (result : JValue) : Except String String :=
  match getKey result "choices" with
  | none => Except.error "KeyError"
  | some choices =>
    match getIdx choices 0 with
    | none => Except.error "IndexError"
    | some c0 =>
      match getKey c0 "message" with
      | none => Except.error "KeyError"
      | some msg =>
        match getKey msg "content" with
        | some (JValue.str s) => Except.ok s
        | some _ => Except.error "AttributeError"
        | none => Except.error "KeyError"

/-- Character set of the Python call lstrip with argument json plus a
newline, which removes any leading run of these five characters. -/
def jsonTagChars : List Char := ['j', 's', 'o', 'n', '\n']

/-- Cleaning applied to the segment between the code-block delimiters:
strip surrounding whitespace, then lstrip the json-tag character set. -/
def cleanSegment (seg : String) : String :=
  pyLstrip (pyStrip seg) jsonTagChars

/-- Model of APIRequestManager.parse_openai_json_result.  Except.error
models an exception escaping the method (KeyError or IndexError or
AttributeError from navigation, IndexError from indexing the split);
Except.ok none models the Python return value None after a caught
json.JSONDecodeError; Except.ok (some d) is a successfully parsed
dictionary. -/
def parse_openai_json_result (result : JValue) : Except String (Option JValue) :=
  match contentOf result with
  | Except.error e => Except.error e
  | Except.ok content =>
    match (pySplit content "```" 2).get? 1 with
    | none => Except.error "IndexError"
    | some seg =>
      match jsonLoads (cleanSegment seg) with
      | some d => Except.ok (some d)
      | none => Except.ok none

/-- Token count read by the line adding usage prompt_tokens: the
subscriptions result["usage"]["prompt_tokens"] followed by integer
addition; none models the exception Python would raise. -/
def usagePrompt (result : JValue) : Option Int :=
  (getKey result "usage").bind (fun u => (getKey u "prompt_tokens").bind asInt)

/-- Token count read by the line adding usage completion_tokens. -/
def usageCompletion (result : JValue) : Option Int :=
  (getKey result "usage").bind (fun u => (getKey u "completion_tokens").bind asInt)

/-- Model of APIRequestManager.process_result.  The source first adds
usage completion_tokens, then usage prompt_tokens, then parses the
content, replaces a falsy or absent parse by an empty dictionary,
appends it to results and reports it to the progress callback.  The
third component carries an exception escaping the method; note that the
token additions preceding an exception are retained, as in Python.  The
print inside parse_openai_json_result on a decode failure is emitted
here, at its position in the trace. -/
def process_result (st : MgrState) (imagePath : String) (result : JValue) :
    MgrState × List Event × Option String :=
  match usageCompletion result with
  | none => (st, [], some "KeyError")
  | some ct =>
    let st1 := { st with completion_tokens := st.completion_tokens + ct }
    match usagePrompt result with
    | none => (st1, [], some "KeyError")
    | some pt =>
      let st2 := { st1 with prompt_tokens := st1.prompt_tokens + pt }
      match parse_openai_json_result result with
      | Except.error e => (st2, [], some e)
      | Except.ok c =>
        let parseEvents : List Event := match c with
          | none => [Event.print "Error parsing JSON"]
          | some _ => []
        let content := match c with
          | some v => if pyTruthy v then v else JValue.obj []
          | none => JValue.obj []
        let st3 := { st2 with results := st2.results ++ [content] }
        (st3, parseEvents ++ [Event.progress (pyStr content)], none)

/-- Environment seen by process_image for one file: either encode_image
raises an OSError (carrying its message), or the requests.post call or
the response body decoding raises, or a decoded JSON response body is
delivered. -/
inductive FileOutcome where
  | encodeError : String → FileOutcome
  | requestError : String → FileOutcome
  | response : JValue → FileOutcome

/-- Model of APIRequestManager.process_image.  The call to encode_image
stands before the try-block, so an encoding error escapes the method
(third component some); every exception raised inside the try-block,
including one escaping process_result, is caught and turned into the
error print and a completed-with-failure notification. -/
def process_image (st : MgrState) (imagePath : String) (outcome : FileOutcome) :
    MgrState × List Event × Option String :=
  match outcome with
  | FileOutcome.encodeError e => (st, [], some e)
  | FileOutcome.requestError e =>
    let p := request_complete st ("Error processing image " ++ imagePath)
    (p.1, Event.print ("Error processing image " ++ imagePath ++ ": " ++ e) :: p.2, none)
  | FileOutcome.response body =>
    match process_result st imagePath body with
    | (st1, evs1, some e) =>
      let p := request_complete st1 ("Error processing image " ++ imagePath)
      (p.1, evs1 ++ Event.print ("Error processing image " ++ imagePath ++ ": " ++ e) :: p.2, none)
    | (st1, evs1, none) =>
      let p := request_complete st1 ("Processed image " ++ imagePath)
      (p.1, evs1 ++ p.2, none)

/-- Model of os.path.join for a directory and a relative file name on a
POSIX system. -/
def pyJoin (dir file : String) : String := dir ++ "/" ++ file

/-- Model of APIRequestManager._process_files, the loop run on the
background worker: for each file report progress and call
process_image.  An exception escaping process_image kills the worker
thread, so the remaining files are not processed; the boolean records
whether the loop was aborted that way. -/
def _process_files (env : String → FileOutcome) (dir : String) (st : MgrState) :
    List String → MgrState × List Event × Bool
  | [] => (st, [], false)
  | f :: rest =>
    let pre := Event.progress ("Processing " ++ f ++ "...")
    match process_image st (pyJoin dir f) (env (pyJoin dir f)) with
    | (st1, evs, some _) => (st1, pre :: evs, true)
    | (st1, evs, none) =>
      let r := _process_files env dir st1 rest
      (r.1, pre :: (evs ++ r.2.1), r.2.2)

/-- One whole batch: construct the manager (which zeroes counters and
collects the files) and run the worker loop over the collected files. -/
def run_batch (env : String → FileOutcome) (dir : String) (entries : List String) :
    MgrState × List Event × Bool :=
  _process_files env dir (initState entries) (collect_files entries)

/-- Number of completion-callback invocations in a trace. -/
def countComplete (evs : List Event) : Nat :=
  evs.countP (fun e => match e with
    | Event.complete _ _ _ => true
    | _ => false)

/-- Test for a progress-callback event. -/
def isProgressEvent : Event → Bool
  | Event.progress _ => true
  | _ => false

/-- Model of calling request_complete once per element of a list of
messages, in order, threading the state. -/
def notifyAll (st : MgrState) : List String → MgrState × List Event
  | [] => (st, [])
  | m :: rest =>
    let p := request_complete st m
    let r := notifyAll p.1 rest
    (r.1, p.2 ++ r.2)

/-- Prompt-token contribution of one file outcome to the tally: the
usage value of a delivered response, nothing otherwise. -/
def outcomePromptTokens : FileOutcome → Int
  | FileOutcome.response body => (usagePrompt body).getD 0
  | _ => 0

/-- Completion-token contribution of one file outcome to the tally. -/
def outcomeCompletionTokens : FileOutcome → Int
  | FileOutcome.response body => (usageCompletion body).getD 0
  | _ => 0

/-- Outcomes under which process_image never lets an exception escape:
no encoding error, and a delivered response carries both usage counts. -/
def goodOutcome : FileOutcome → Prop
  | FileOutcome.encodeError _ => False
  | FileOutcome.requestError _ => True
  | FileOutcome.response body =>
      (usagePrompt body).isSome = true ∧ (usageCompletion body).isSome = true

/-- Precondition of the token-tally monotonicity claim: whatever usage
counts the remote service reports are non-negative. -/
def usageNonneg : FileOutcome → Prop
  | FileOutcome.response body =>
      (∀ n, usagePrompt body = some n → 0 ≤ n) ∧
      (∀ n, usageCompletion body = some n → 0 ≤ n)
  | _ => True

/- Helper lemmas shared by the claim theorems. -/

theorem request_complete_fst (st : MgrState) (msg : String) :
    (request_complete st msg).1 =
      { st with completed_requests := st.completed_requests + 1 } := by
  unfold request_complete
  dsimp only
  split <;> rfl

theorem countComplete_append (a b : List Event) :
    countComplete (a ++ b) = countComplete a + countComplete b := by
  unfold countComplete
  exact List.countP_append _ _ _

theorem countComplete_request_complete (st : MgrState) (msg : String) :
    countComplete (request_complete st msg).2 =
      if st.completed_requests + 1 = st.num_requests then 1 else 0 := by
  unfold request_complete
  dsimp only
  split <;> simp_all [countComplete, List.countP_cons]

theorem notifyAll_num (st : MgrState) (msgs : List String) :
    (notifyAll st msgs).1.num_requests = st.num_requests := by
  induction msgs generalizing st with
  | nil => rfl
  | cons m rest ih =>
    show (notifyAll (request_complete st m).1 rest).1.num_requests = st.num_requests
    rw [ih, request_complete_fst]

theorem notifyAll_count (st : MgrState) (msgs : List String) :
    countComplete (notifyAll st msgs).2 =
      if st.completed_requests < st.num_requests ∧
         st.num_requests ≤ st.completed_requests + msgs.length
      then 1 else 0 := by
  induction msgs generalizing st with
  | nil =>
    simp only [notifyAll, List.length_nil, Nat.add_zero]
    have h : ¬ (st.completed_requests < st.num_requests ∧
        st.num_requests ≤ st.completed_requests) := by omega
    rw [if_neg h]
    rfl
  | cons m rest ih =>
    show countComplete ((request_complete st m).2 ++
          (notifyAll (request_complete st m).1 rest).2) = _
    rw [countComplete_append, countComplete_request_complete, ih,
        request_complete_fst]
    dsimp only
    split_ifs <;> simp_all <;> omega

theorem request_complete_tokens (st : MgrState) (msg : String) :
    (request_complete st msg).1.prompt_tokens = st.prompt_tokens ∧
    (request_complete st msg).1.completion_tokens = st.completion_tokens ∧
    (request_complete st msg).1.results = st.results ∧
    (request_complete st msg).1.num_requests = st.num_requests := by
  rw [request_complete_fst]
  exact ⟨rfl, rfl, rfl, rfl⟩

theorem parse_ok_none_of_decode_fail (result : JValue) (s seg : String)
    (hc : contentOf result = Except.ok s)
    (hseg : (pySplit s "```" 2).get? 1 = some seg)
    (hdec : jsonLoads (cleanSegment seg) = none) :
    parse_openai_json_result result = Except.ok none := by
  unfold parse_openai_json_result
  rw [hc]
  dsimp only
  rw [hseg]
  dsimp only
  rw [hdec]

theorem process_result_good (st : MgrState) (path : String) (body : JValue)
    (ct pt : Int) (hct : usageCompletion body = some ct)
    (hpt : usagePrompt body = some pt) :
    (process_result st path body).1.prompt_tokens = st.prompt_tokens + pt ∧
    (process_result st path body).1.completion_tokens = st.completion_tokens + ct ∧
    (process_result st path body).1.num_requests = st.num_requests ∧
    (process_result st path body).1.completed_requests = st.completed_requests := by
  unfold process_result
  rw [hct, hpt]
  dsimp only
  cases hparse : parse_openai_json_result body with
  | error e => exact ⟨rfl, rfl, rfl, rfl⟩
  | ok c => cases c <;> exact ⟨rfl, rfl, rfl, rfl⟩

theorem process_image_good_tokens (st : MgrState) (path : String)
    (o : FileOutcome) (h : goodOutcome o) :
    (process_image st path o).1.prompt_tokens =
      st.prompt_tokens + outcomePromptTokens o ∧
    (process_image st path o).1.completion_tokens =
      st.completion_tokens + outcomeCompletionTokens o ∧
    (process_image st path o).1.num_requests = st.num_requests ∧
    (process_image st path o).2.2 = none := by
  cases o with
  | encodeError e => simp [goodOutcome] at h
  | requestError e =>
    unfold process_image
    dsimp only
    rw [request_complete_fst]
    simp [outcomePromptTokens, outcomeCompletionTokens]
  | response body =>
    obtain ⟨hpS, hcS⟩ := h
    obtain ⟨pt, hpt⟩ := Option.isSome_iff_exists.mp hpS
    obtain ⟨ct, hct⟩ := Option.isSome_iff_exists.mp hcS
    have hgood := process_result_good st path body ct pt hct hpt
    rcases hpr : process_result st path body with ⟨st1, evs1, exn⟩
    rw [hpr] at hgood
    dsimp only at hgood
    cases exn with
    | some e =>
      unfold process_image
      dsimp only
      rw [hpr]
      dsimp only
      rw [request_complete_fst]
      simp [outcomePromptTokens, outcomeCompletionTokens, hpt, hct, hgood.1,
        hgood.2.1, hgood.2.2.1]
    | none =>
      unfold process_image
      dsimp only
      rw [hpr]
      dsimp only
      rw [request_complete_fst]
      simp [outcomePromptTokens, outcomeCompletionTokens, hpt, hct, hgood.1,
        hgood.2.1, hgood.2.2.1]

theorem process_result_tokens_mono (st : MgrState) (path : String) (body : JValue)
    (hp : ∀ n, usagePrompt body = some n → 0 ≤ n)
    (hc : ∀ n, usageCompletion body = some n → 0 ≤ n) :
    st.prompt_tokens ≤ (process_result st path body).1.prompt_tokens ∧
    st.completion_tokens ≤ (process_result st path body).1.completion_tokens := by
  unfold process_result
  cases hct : usageCompletion body with
  | none => exact ⟨le_refl _, le_refl _⟩
  | some ct =>
    have hctn := hc ct hct
    dsimp only
    cases hpt : usagePrompt body with
    | none =>
      dsimp only
      constructor
      · exact le_refl _
      · omega
    | some pt =>
      have hptn := hp pt hpt
      dsimp only
      cases hparse : parse_openai_json_result body with
      | error e =>
        dsimp only
        constructor <;> omega
      | ok c =>
        cases c <;> dsimp only <;> constructor <;> omega

theorem process_image_tokens_mono (st : MgrState) (path : String)
    (o : FileOutcome) (h : usageNonneg o) :
    st.prompt_tokens ≤ (process_image st path o).1.prompt_tokens ∧
    st.completion_tokens ≤ (process_image st path o).1.completion_tokens := by
  cases o with
  | encodeError e => exact ⟨le_refl _, le_refl _⟩
  | requestError e =>
    unfold process_image
    dsimp only
    rw [request_complete_fst]
    exact ⟨le_refl _, le_refl _⟩
  | response body =>
    obtain ⟨hp, hc⟩ := h
    have hmono := process_result_tokens_mono st path body hp hc
    rcases hpr : process_result st path body with ⟨st1, evs1, exn⟩
    rw [hpr] at hmono
    dsimp only at hmono
    cases exn with
    | some e =>
      unfold process_image
      dsimp only
      rw [hpr]
      dsimp only
      rw [request_complete_fst]
      exact hmono
    | none =>
      unfold process_image
      dsimp only
      rw [hpr]
      dsimp only
      rw [request_complete_fst]
      exact hmono

/- Claim C1 -/

/-- Environment for claim C1: the first collected file fails at
encode_image (for instance it was deleted between discovery and
processing), the second would merely fail at the request. -/
def c1Env (path : String) : FileOutcome :=
  if path = "forms/a.jpg" then FileOutcome.encodeError "PermissionError"
  else FileOutcome.requestError "boom"

/-- Claim C1: the claim states that an I/O error at encoding time is
treated the same as a remote-request failure, counting as one
completed-with-failure task, with all subsequent files still processed.
The code calls encode_image before the try-block of process_image, so
the error escapes, the worker loop dies, the second file is never
processed (its progress message never appears), no completion is ever
recorded and the completion callback never fires.  This theorem
evaluates the model at that failing input and exhibits the divergence. -/
theorem c1_encode_error_aborts_batch :
    run_batch c1Env "forms" ["a.jpg", "b.jpg"] =
      ({ completed_requests := 0, num_requests := 2, results := [],
         prompt_tokens := 0, completion_tokens := 0 },
       [Event.progress "Processing a.jpg..."], true) ∧
    (run_batch c1Env "forms" ["a.jpg", "b.jpg"]).1.completed_requests = 0 ∧
    countComplete (run_batch c1Env "forms" ["a.jpg", "b.jpg"]).2.1 = 0 := by
  exact ⟨rfl, rfl, rfl⟩

/- Claim C2 -/

/-- Claim C2, counterexample: the claim says extension matching is
case-insensitive and that the directory A.JPG, b.png, c.txt, d yields
exactly two collected files.  The source tests file.endswith with the
three lowercase extensions only, so A.JPG is not collected and exactly
one file is collected. -/
theorem c2_counterexample :
    collect_files ["A.JPG", "b.png", "c.txt", "d"] = ["b.png"] ∧
    (collect_files ["A.JPG", "b.png", "c.txt", "d"]).length ≠ 2 := by
  exact ⟨rfl, by decide⟩

/-- Claim C2, amended: the file collector returns exactly the entries
whose name ends, case-sensitively, in .jpg, .jpeg or .png; the example
directory A.JPG, b.png, c.txt, d therefore yields exactly one collected
file, b.png. -/
theorem c2_amended_case_sensitive_filter :
    (∀ (entries : List String) (f : String),
        f ∈ collect_files entries ↔
          f ∈ entries ∧
            (pyEndswith f ".jpg" || pyEndswith f ".jpeg" || pyEndswith f ".png") = true) ∧
    collect_files ["A.JPG", "b.png", "c.txt", "d"] = ["b.png"] := by
  constructor
  · intro entries f
    simp [collect_files, List.mem_filter]
  · rfl

/- Claim C3 -/

/-- Response envelope whose first choice content has no code-block
delimiter at all. -/
def c3Body : JValue :=
  JValue.obj [("choices", JValue.arr [JValue.obj [("message",
    JValue.obj [("content", JValue.str "no code block here")])]])]

/-- Claim C3, counterexample: the claim says the parser returns an
empty/absent result and never raises on any parse failure, including a
missing code-block delimiter.  On a content without the delimiter,
content.split produces a single segment and the index [1] raises
IndexError, modelled as Except.error, so the parser does raise. -/
theorem c3_counterexample :
    parse_openai_json_result c3Body = Except.error "IndexError" := by
  rfl

/-- Claim C3, amended: the parser returns an absent result without
raising only when the embedded JSON fails to decode; a missing
code-block delimiter raises IndexError and a failed navigation to the
first choice content propagates its exception (these are then caught by
the per-file handler in process_image, not replaced by an empty
record). -/
theorem c3_amended_parser_raises_except_decode :
    (∀ (result : JValue) (s seg : String),
        contentOf result = Except.ok s →
        (pySplit s "```" 2).get? 1 = some seg →
        jsonLoads (cleanSegment seg) = none →
        parse_openai_json_result result = Except.ok none) ∧
    (∀ (result : JValue) (s : String),
        contentOf result = Except.ok s →
        (pySplit s "```" 2).get? 1 = none →
        parse_openai_json_result result = Except.error "IndexError") ∧
    (∀ (result : JValue) (e : String),
        contentOf result = Except.error e →
        parse_openai_json_result result = Except.error e) := by
  refine ⟨?_, ?_, ?_⟩
  · intro result s seg hc hseg hdec
    exact parse_ok_none_of_decode_fail result s seg hc hseg hdec
  · intro result s hc hseg
    unfold parse_openai_json_result
    rw [hc]
    dsimp only
    rw [hseg]
  · intro result e hc
    unfold parse_openai_json_result
    rw [hc]

/-- Response envelope whose content has the delimiter but undecodable
embedded JSON, used to witness the amended claim C3. -/
def c3DecodeFailBody : JValue :=
  JValue.obj [("choices", JValue.arr [JValue.obj [("message",
    JValue.obj [("content", JValue.str "```json\nnot json\n```")])]])]

/-- Witness for the amended claim C3 at concrete inputs. -/
theorem c3_amended_parser_raises_except_decode_witness :
    parse_openai_json_result c3DecodeFailBody = Except.ok none ∧
    parse_openai_json_result c3Body = Except.error "IndexError" := by
  constructor
  · exact c3_amended_parser_raises_except_decode.1 c3DecodeFailBody
      "```json\nnot json\n```" "json\nnot json\n" rfl rfl rfl
  · exact c3_amended_parser_raises_except_decode.2.1 c3Body "no code block here" rfl rfl

/- Claim C4 -/

/-- Response envelope with well-formed usage counts but an undecodable
embedded JSON payload, so its content is never successfully parsed. -/
def c4Body : JValue :=
  JValue.obj [("choices", JValue.arr [JValue.obj [("message",
    JValue.obj [("content", JValue.str "```json\nnot valid json\n```")])]]),
    ("usage", JValue.obj [("prompt_tokens", JValue.num 5),
                          ("completion_tokens", JValue.num 7)])]

/-- Environment for claim C4: the single collected file receives the
response with undecodable content. -/
def c4Env (path : String) : FileOutcome :=
  if path = "forms/a.jpg" then FileOutcome.response c4Body
  else FileOutcome.requestError "boom"

/-- Claim C4, counterexample: the claim says the final TokenTally sums
usage over only the successfully parsed responses, unparsed responses
contributing zero.  In this batch the only response fails to parse
(the parser returns None and an empty record is appended), yet the
tally ends at 5 prompt and 7 completion tokens, because the source adds
the usage counts before attempting to parse the content. -/
theorem c4_counterexample :
    parse_openai_json_result c4Body = Except.ok none ∧
    (run_batch c4Env "forms" ["a.jpg"]).1.results = [JValue.obj []] ∧
    (run_batch c4Env "forms" ["a.jpg"]).1.prompt_tokens = 5 ∧
    (run_batch c4Env "forms" ["a.jpg"]).1.completion_tokens = 7 ∧
    (run_batch c4Env "forms" ["a.jpg"]).1.prompt_tokens ≠ 0 := by
  exact ⟨rfl, rfl, rfl, rfl, by decide⟩

/-- Claim C4, amended: the final TokenTally equals the sum of the
reported usage counts over all delivered responses that carry usage
fields, regardless of whether their content parses; files whose request
fails contribute zero. -/
theorem c4_amended_tally_counts_delivered_responses
    (env : String → FileOutcome) (dir : String) (st : MgrState)
    (files : List String)
    (h : ∀ f ∈ files, goodOutcome (env (pyJoin dir f))) :
    (_process_files env dir st files).1.prompt_tokens =
      st.prompt_tokens +
        (files.map (fun f => outcomePromptTokens (env (pyJoin dir f)))).sum ∧
    (_process_files env dir st files).1.completion_tokens =
      st.completion_tokens +
        (files.map (fun f => outcomeCompletionTokens (env (pyJoin dir f)))).sum := by
  induction files generalizing st with
  | nil => simp [_process_files]
  | cons f rest ih =>
    have hg : goodOutcome (env (pyJoin dir f)) := h f (List.mem_cons_self f rest)
    have hrest : ∀ g ∈ rest, goodOutcome (env (pyJoin dir g)) :=
      fun g hgm => h g (List.mem_cons_of_mem f hgm)
    have hstep := process_image_good_tokens st (pyJoin dir f) (env (pyJoin dir f)) hg
    rcases hpi : process_image st (pyJoin dir f) (env (pyJoin dir f)) with ⟨st1, evs, exn⟩
    rw [hpi] at hstep
    dsimp only at hstep
    obtain ⟨h1, h2, h3, h4⟩ := hstep
    subst h4
    have hih := ih st1 hrest
    unfold _process_files
    rw [hpi]
    dsimp only
    rw [List.map_cons, List.map_cons, List.sum_cons, List.sum_cons, hih.1, hih.2,
        h1, h2]
    constructor <;> omega

/-- Witness for the amended claim C4 at a concrete batch. -/
theorem c4_amended_tally_counts_delivered_responses_witness :
    (_process_files c4Env "forms" (initState ["a.jpg"]) ["a.jpg"]).1.prompt_tokens =
      (initState ["a.jpg"]).prompt_tokens +
        ((["a.jpg"].map (fun f => outcomePromptTokens (c4Env (pyJoin "forms" f)))).sum) ∧
    (_process_files c4Env "forms" (initState ["a.jpg"]) ["a.jpg"]).1.completion_tokens =
      (initState ["a.jpg"]).completion_tokens +
        ((["a.jpg"].map (fun f => outcomeCompletionTokens (c4Env (pyJoin "forms" f)))).sum) := by
  exact c4_amended_tally_counts_delivered_responses c4Env "forms" (initState ["a.jpg"])
    ["a.jpg"] (by
      intro f hf
      rw [List.mem_singleton] at hf
      subst hf
      exact ⟨rfl, rfl⟩)

/- Claim C5 -/

/-- Claim C5: for a batch of size 0 (no matching files in the
directory), the worker loop runs zero iterations and returns at once,
producing no events at all: the system does not hang, and the
completion sink is a no-op (never invoked), one of the two behaviors
the claim allows. -/
theorem c5_empty_batch_short_circuits (env : String → FileOutcome)
    (dir : String) (entries : List String)
    (h : collect_files entries = []) :
    run_batch env dir entries = (initState entries, [], false) ∧
    countComplete (run_batch env dir entries).2.1 = 0 := by
  constructor
  · unfold run_batch
    rw [h]
    rfl
  · unfold run_batch
    rw [h]
    rfl

/-- Witness for claim C5: a directory whose only entry has no matching
extension. -/
theorem c5_empty_batch_short_circuits_witness :
    run_batch (fun _ => FileOutcome.requestError "boom") "forms" ["c.txt"] =
      (initState ["c.txt"], [], false) ∧
    countComplete
      (run_batch (fun _ => FileOutcome.requestError "boom") "forms" ["c.txt"]).2.1 = 0 :=
  c5_empty_batch_short_circuits (fun _ => FileOutcome.requestError "boom")
    "forms" ["c.txt"] rfl

/- Claim C6 -/

/-- Claim C6: starting from a fresh counter with batch size N equal to
the number of notifications, notifying each file complete exactly once
invokes the completion callback exactly once, and that invocation
happens during the N-th notification: every proper prefix of the
notification sequence produces zero completion events, and the full
sequence produces exactly one. -/
theorem c6_completion_fires_once_at_nth (st : MgrState) (msgs : List String)
    (h0 : st.completed_requests = 0)
    (hN : st.num_requests = msgs.length)
    (hpos : 1 ≤ msgs.length) :
    countComplete (notifyAll st msgs).2 = 1 ∧
    ∀ k, k < msgs.length → countComplete (notifyAll st (msgs.take k)).2 = 0 := by
  constructor
  · rw [notifyAll_count, h0, hN]
    have hcond : 0 < msgs.length ∧ msgs.length ≤ 0 + msgs.length := by omega
    rw [if_pos hcond]
  · intro k hk
    rw [notifyAll_count, h0, hN, List.length_take]
    have hcond : ¬ (0 < msgs.length ∧ msgs.length ≤ 0 + min k msgs.length) := by
      omega
    rw [if_neg hcond]

/-- Witness for claim C6 with a batch of size one. -/
theorem c6_completion_fires_once_at_nth_witness :
    countComplete (notifyAll (initState ["a.jpg"]) ["done"]).2 = 1 ∧
    countComplete (notifyAll (initState ["a.jpg"]) (List.take 0 ["done"])).2 = 0 := by
  constructor
  · exact (c6_completion_fires_once_at_nth (initState ["a.jpg"]) ["done"]
      rfl rfl (by decide)).1
  · exact (c6_completion_fires_once_at_nth (initState ["a.jpg"]) ["done"]
      rfl rfl (by decide)).2 0 (by decide)

/- Claim C7 -/

/-- Environment for claim C7: every request fails at the transport
layer. -/
def c7Env (_ : String) : FileOutcome := FileOutcome.requestError "boom"

/-- Claim C7, counterexample: the claim says a remote-call failure is
reported via the progress sink as a message of the form Error
processing image path.  In the code the error is written with print
(and again by request_complete, which also prints), while the progress
callback receives only the pre-processing message: the complete list of
progress-sink events of this failing batch is the single Processing
message, which is not of the error form.  The completed-with-failure
accounting itself does hold (counter 1, no record). -/
theorem c7_counterexample :
    (run_batch c7Env "forms" ["x.jpg"]).2.1 =
      [Event.progress "Processing x.jpg...",
       Event.print "Error processing image forms/x.jpg: boom",
       Event.print "Error processing image forms/x.jpg",
       Event.complete [] 0 0] ∧
    List.filter isProgressEvent (run_batch c7Env "forms" ["x.jpg"]).2.1 =
      [Event.progress "Processing x.jpg..."] ∧
    "Processing x.jpg..." ≠ "Error processing image forms/x.jpg" ∧
    (run_batch c7Env "forms" ["x.jpg"]).1.completed_requests = 1 ∧
    (run_batch c7Env "forms" ["x.jpg"]).1.results = [] := by
  exact ⟨rfl, rfl, by decide, rfl, rfl⟩

/-- Claim C7, amended: a remote-call failure is reported by printing to
standard output, once as the message with the exception detail appended
and once in exactly the form Error processing image path via the
completion notification; the progress callback receives no message for
it.  The file still counts as one completed-with-failure toward the
batch total and contributes no record. -/
theorem c7_amended_error_printed_not_progress (st : MgrState) (path e : String) :
    (process_image st path (FileOutcome.requestError e)).1.completed_requests =
      st.completed_requests + 1 ∧
    (process_image st path (FileOutcome.requestError e)).1.results = st.results ∧
    Event.print ("Error processing image " ++ path ++ ": " ++ e) ∈
      (process_image st path (FileOutcome.requestError e)).2.1 ∧
    Event.print ("Error processing image " ++ path) ∈
      (process_image st path (FileOutcome.requestError e)).2.1 ∧
    List.filter isProgressEvent
      (process_image st path (FileOutcome.requestError e)).2.1 = [] := by
  unfold process_image request_complete
  dsimp only
  split <;>
    exact ⟨rfl, rfl, by simp, by simp, by simp [isProgressEvent]⟩

/- Claim C8 -/

/-- Claim C8: a response whose code-block delimiter is present but whose
embedded JSON fails to decode makes the parser return None; the caller
replaces it by an empty dictionary and appends it, so the result
sequence gains exactly one (empty) entry for that file and no exception
escapes process_result. -/
theorem c8_decode_failure_appends_empty_record (st : MgrState) (path : String)
    (body : JValue) (s seg : String) (ct pt : Int)
    (hc : contentOf body = Except.ok s)
    (hseg : (pySplit s "```" 2).get? 1 = some seg)
    (hdec : jsonLoads (cleanSegment seg) = none)
    (hct : usageCompletion body = some ct)
    (hpt : usagePrompt body = some pt) :
    (process_result st path body).1.results = st.results ++ [JValue.obj []] ∧
    (process_result st path body).2.2 = none := by
  have hparse := parse_ok_none_of_decode_fail body s seg hc hseg hdec
  unfold process_result
  rw [hct, hpt]
  dsimp only
  rw [hparse]
  exact ⟨rfl, rfl⟩

/-- Response envelope used to witness claim C8. -/
def c8Body : JValue :=
  JValue.obj [("choices", JValue.arr [JValue.obj [("message",
    JValue.obj [("content", JValue.str "```json\nnope\n```")])]]),
    ("usage", JValue.obj [("prompt_tokens", JValue.num 3),
                          ("completion_tokens", JValue.num 4)])]

/-- Witness for claim C8 at a concrete response. -/
theorem c8_decode_failure_appends_empty_record_witness :
    (process_result (initState []) "forms/a.jpg" c8Body).1.results =
      (initState []).results ++ [JValue.obj []] ∧
    (process_result (initState []) "forms/a.jpg" c8Body).2.2 = none :=
  c8_decode_failure_appends_empty_record (initState []) "forms/a.jpg" c8Body
    "```json\nnope\n```" "json\nnope\n" 4 3 rfl rfl rfl rfl rfl

/- Claim C9 -/

/-- Claim C9: for every well-formed response envelope whose first
choice content is the delimited code block with body a one-pair object
mapping a to b, the parser yields exactly that mapping. -/
theorem c9_roundtrip (result : JValue)
    (h : contentOf result = Except.ok "```json\n\x7b\"a\":\"b\"\x7d\n```") :
    parse_openai_json_result result =
      Except.ok (some (JValue.obj [("a", JValue.str "b")])) := by
  unfold parse_openai_json_result
  rw [h]
  rfl

/-- Response envelope used to witness claim C9. -/
def c9Body : JValue :=
  JValue.obj [("choices", JValue.arr [JValue.obj [("message",
    JValue.obj [("content", JValue.str "```json\n\x7b\"a\":\"b\"\x7d\n```")])]]),
    ("usage", JValue.obj [("prompt_tokens", JValue.num 5),
                          ("completion_tokens", JValue.num 7)])]

/-- Witness for claim C9 at a concrete envelope. -/
theorem c9_roundtrip_witness :
    parse_openai_json_result c9Body =
      Except.ok (some (JValue.obj [("a", JValue.str "b")])) :=
  c9_roundtrip c9Body rfl

/- Claim C10 -/

/-- Claim C10: the token counters start a batch at zero (reset happens
only when a new manager is constructed for a new batch), and under the
precondition that every reported usage count is non-negative, no
per-file operation and no whole worker loop ever decreases either
counter. -/
theorem c10_token_tally_monotone :
    (∀ entries : List String,
        (initState entries).prompt_tokens = 0 ∧
        (initState entries).completion_tokens = 0) ∧
    (∀ (st : MgrState) (path : String) (o : FileOutcome), usageNonneg o →
        st.prompt_tokens ≤ (process_image st path o).1.prompt_tokens ∧
        st.completion_tokens ≤ (process_image st path o).1.completion_tokens) ∧
    (∀ (env : String → FileOutcome) (dir : String) (files : List String)
        (st : MgrState),
        (∀ f ∈ files, usageNonneg (env (pyJoin dir f))) →
        st.prompt_tokens ≤ (_process_files env dir st files).1.prompt_tokens ∧
        st.completion_tokens ≤
          (_process_files env dir st files).1.completion_tokens) := by
  refine ⟨fun entries => ⟨rfl, rfl⟩,
          fun st path o h => process_image_tokens_mono st path o h, ?_⟩
  intro env dir files
  induction files with
  | nil =>
    intro st h
    exact ⟨le_refl _, le_refl _⟩
  | cons f rest ih =>
    intro st h
    have hg := h f (List.mem_cons_self f rest)
    have hrest : ∀ g ∈ rest, usageNonneg (env (pyJoin dir g)) :=
      fun g hgm => h g (List.mem_cons_of_mem f hgm)
    have hstep := process_image_tokens_mono st (pyJoin dir f) (env (pyJoin dir f)) hg
    rcases hpi : process_image st (pyJoin dir f) (env (pyJoin dir f)) with ⟨st1, evs, exn⟩
    rw [hpi] at hstep
    dsimp only at hstep
    cases exn with
    | some e =>
      unfold _process_files
      rw [hpi]
      dsimp only
      exact hstep
    | none =>
      unfold _process_files
      rw [hpi]
      dsimp only
      have hih := ih st1 hrest
      exact ⟨le_trans hstep.1 hih.1, le_trans hstep.2 hih.2⟩

/-- Response envelope used to witness claim C10. -/
def c10Body : JValue :=
  JValue.obj [("choices", JValue.arr [JValue.obj [("message",
    JValue.obj [("content", JValue.str "```json\n\x7b\"x\":\"y\"\x7d\n```")])]]),
    ("usage", JValue.obj [("prompt_tokens", JValue.num 5),
                          ("completion_tokens", JValue.num 7)])]

/-- Environment used to witness claim C10. -/
def c10Env (_ : String) : FileOutcome := FileOutcome.response c10Body

/-- Witness for claim C10 on a concrete one-file batch with
non-negative usage. -/
theorem c10_token_tally_monotone_witness :
    (initState ["a.jpg"]).prompt_tokens ≤
      (_process_files c10Env "forms" (initState ["a.jpg"]) ["a.jpg"]).1.prompt_tokens ∧
    (initState ["a.jpg"]).completion_tokens ≤
      (_process_files c10Env "forms" (initState ["a.jpg"]) ["a.jpg"]).1.completion_tokens := by
  exact c10_token_tally_monotone.2.2 c10Env "forms" ["a.jpg"] (initState ["a.jpg"])
    (by
      intro f hf
      rw [List.mem_singleton] at hf
      subst hf
      constructor
      · intro n hn
        have e1 : usagePrompt c10Body = some 5 := rfl
        rw [e1] at hn
        injection hn with hn
        omega
      · intro n hn
        have e1 : usageCompletion c10Body = some 7 := rfl
        rw [e1] at hn
        injection hn with hn
        omega)
